import Mathlib

/-!
Verification of the page/limit query-parameter extraction routine of the
QA workshop repository (api/src/utils.ts as printed in the workshop README).

The source function `asNumber` reads `query[optionName]` from a parsed
query-string mapping (`qs.ParsedQs`), requires the value to be a single
string (`typeof queryOption === "string"`), coerces it with the unary plus
operator (`const n = +queryOption`) and throws
`new Error(optionName + " needs to be a valid number")` when the value is
not a single string or when the coercion yields NaN (`isNaN(n)`).

The embedding below models:
  - `qs.ParsedQs` values as a tagged variant (single string, array of
    strings, nested object, array of objects) and the mapping itself as an
    association list;
  - the ECMAScript ToNumber conversion applied to strings by the unary
    plus operator (whitespace trimming, empty string to 0, hex / octal /
    binary prefixes, optional sign, Infinity, decimal and scientific
    notation), with NaN represented as `none`.  Numeric values are kept as
    exact rationals plus the two infinities; the IEEE-754 rounding of the
    final value is not modelled, which is sound for every claim below
    because rounding never turns a parsed number into NaN and every
    concrete value appearing in a claim is exactly representable;
  - thrown errors as `Except.error` carrying the message string, exactly
    as built by the source.
-/

/-- A JavaScript number as produced by string coercion: an exact finite
value or one of the two infinities.  NaN is represented externally by
`Option` (a failed conversion), matching the `isNaN` test in the source. -/
inductive JSNumber where
  | finite (val : ℚ)
  | posInf
  | negInf
deriving DecidableEq, Repr

/-- Negation of a coerced number, used for a leading minus sign. -/
def JSNumber.neg : JSNumber → JSNumber
  | .finite q => .finite (-q)
  | .posInf => .negInf
  | .negInf => .posInf

/-- A value of the `qs.ParsedQs` mapping: a single string, an array of
strings, a nested parsed object, or an array of nested parsed objects.
The source only ever distinguishes single strings from everything else
(`typeof queryOption === "string"`). -/
inductive QueryValue where
  | str (s : String)
  | strArr (ss : List String)
  | obj (fields : List (String × QueryValue))
  | objArr (os : List (List (String × QueryValue)))

/-- A parsed query-string mapping (`qs.ParsedQs`): keys to values. -/
abbrev Query : Type := List (String × QueryValue)

/-- Property lookup `query[optionName]`; an absent key is `undefined`,
modelled as `none`. -/
def qlookup : Query → String → Option QueryValue
  | [], _ => none
  | (k, v) :: rest, key => if k = key then some v else qlookup rest key

/-! ### ECMAScript ToNumber on strings (the unary plus of the source) -/

/-- The StrWhiteSpaceChar set of ECMAScript: WhiteSpace and
LineTerminator code points, stripped from both ends before parsing. -/
def isStrWhiteSpace (c : Char) : Bool :=
  c = '\u0009' || c = '\u000A' || c = '\u000B' || c = '\u000C' ||
  c = '\u000D' || c = ' ' || c = '\u00A0' || c = '\u1680' ||
  ('\u2000' ≤ c && c ≤ '\u200A') ||
  c = '\u2028' || c = '\u2029' || c = '\u202F' || c = '\u205F' ||
  c = '\u3000' || c = '\uFEFF'

/-- Strip leading and trailing StrWhiteSpace. -/
def trimWS (cs : List Char) : List Char :=
  ((cs.dropWhile isStrWhiteSpace).reverse.dropWhile isStrWhiteSpace).reverse

/-- Value of a decimal digit character, if it is one. -/
def decDigitVal (c : Char) : Option Nat :=
  if c.isDigit then some (c.toNat - 48) else none

/-- Value of a hexadecimal digit character, if it is one. -/
def hexDigitVal (c : Char) : Option Nat :=
  if c.isDigit then some (c.toNat - 48)
  else if 'a' ≤ c && c ≤ 'f' then some (c.toNat - 87)
  else if 'A' ≤ c && c ≤ 'F' then some (c.toNat - 55)
  else none

/-- Value of an octal digit character, if it is one. -/
def octDigitVal (c : Char) : Option Nat :=
  if '0' ≤ c && c ≤ '7' then some (c.toNat - 48) else none

/-- Value of a binary digit character, if it is one. -/
def binDigitVal (c : Char) : Option Nat :=
  if c = '0' then some 0 else if c = '1' then some 1 else none

/-- Read a nonempty run of digits of the given base covering the whole
list; `none` when the list is empty or holds a foreign character. -/
def parseRadixDigits (base : Nat) (digOf : Char → Option Nat)
    (cs : List Char) : Option Nat :=
  if cs.isEmpty then none
  else cs.foldl
    (fun acc c => acc.bind fun a => (digOf c).map fun d => a * base + d)
    (some 0)

/-- Numeric value of a nonempty list of decimal digits. -/
def decDigitsNat (cs : List Char) : Nat :=
  cs.foldl (fun a c => a * 10 + (c.toNat - 48)) 0

/-- Parse the optional ExponentPart closing a decimal literal: either
nothing remains, or an `e`/`E` followed by an optionally signed nonempty
digit run consuming the rest of the input. -/
def parseExponentOpt (cs : List Char) : Option Int :=
  match cs with
  | [] => some 0
  | c :: rest =>
    if c = 'e' || c = 'E' then
      let sr : Int × List Char :=
        match rest with
        | '+' :: r => (1, r)
        | '-' :: r => (-1, r)
        | r => (1, r)
      let ds := sr.2.takeWhile Char.isDigit
      let rest3 := sr.2.dropWhile Char.isDigit
      if ds.isEmpty || !rest3.isEmpty then none
      else some (sr.1 * (decDigitsNat ds : Int))
    else none

/-- Exact value of a decimal literal with integer-part digits `ip`,
fraction digits `fp` and exponent `e`: the two digit runs read as one
mantissa, scaled by ten to the power `e` minus the fraction length.  The
arithmetic stays in `Nat`/`Int` so that concrete values reduce inside the
kernel; the result is cast to `ℚ` (one division when the scale is
negative). -/
def decLiteralValue (ip fp : List Char) (e : Int) : ℚ :=
  let m : Nat := decDigitsNat (ip ++ fp)
  let sc : Int := e - (fp.length : Int)
  if 0 ≤ sc then ((m * 10 ^ sc.toNat : Nat) : ℚ)
  else (m : ℚ) / ((10 ^ (-sc).toNat : Nat) : ℚ)

/-- StrUnsignedDecimalLiteral without the Infinity production: digits,
an optional decimal point with optional further digits, and an optional
exponent; at least one digit must be present. -/
def strUnsignedDecimalValue (cs : List Char) : Option ℚ :=
  let ip := cs.takeWhile Char.isDigit
  let rest1 := cs.dropWhile Char.isDigit
  match rest1 with
  | '.' :: rest2 =>
    let fp := rest2.takeWhile Char.isDigit
    let rest3 := rest2.dropWhile Char.isDigit
    if ip.isEmpty && fp.isEmpty then none
    else (parseExponentOpt rest3).map fun e => decLiteralValue ip fp e
  | _ =>
    if ip.isEmpty then none
    else (parseExponentOpt rest1).map fun e => decLiteralValue ip [] e

/-- StrUnsignedNumericLiteral: the literal `Infinity` or an unsigned
decimal literal. -/
def strUnsignedValue (cs : List Char) : Option JSNumber :=
  if cs = "Infinity".toList then some JSNumber.posInf
  else (strUnsignedDecimalValue cs).map JSNumber.finite

/-- StrNumericLiteral after trimming: the empty remainder is 0; a
`0x`/`0o`/`0b` prefix selects a nondecimal integer literal (no sign
allowed); otherwise an optional sign precedes an unsigned literal. -/
def strNumericValue (cs : List Char) : Option JSNumber :=
  match cs with
  | [] => some (JSNumber.finite 0)
  | '0' :: 'x' :: rest =>
    (parseRadixDigits 16 hexDigitVal rest).map fun n => JSNumber.finite (n : ℚ)
  | '0' :: 'X' :: rest =>
    (parseRadixDigits 16 hexDigitVal rest).map fun n => JSNumber.finite (n : ℚ)
  | '0' :: 'o' :: rest =>
    (parseRadixDigits 8 octDigitVal rest).map fun n => JSNumber.finite (n : ℚ)
  | '0' :: 'O' :: rest =>
    (parseRadixDigits 8 octDigitVal rest).map fun n => JSNumber.finite (n : ℚ)
  | '0' :: 'b' :: rest =>
    (parseRadixDigits 2 binDigitVal rest).map fun n => JSNumber.finite (n : ℚ)
  | '0' :: 'B' :: rest =>
    (parseRadixDigits 2 binDigitVal rest).map fun n => JSNumber.finite (n : ℚ)
  | '-' :: rest => (strUnsignedValue rest).map JSNumber.neg
  | '+' :: rest => strUnsignedValue rest
  | cs => strUnsignedValue cs

/-- ECMAScript ToNumber applied to a string, as performed by the unary
plus in `const n = +queryOption`; `none` is NaN (the `isNaN n` case). -/
def jsToNumber (s : String) : Option JSNumber :=
  strNumericValue (trimWS s.toList)

/-! ### The source functions -/

/-- The message of the error built by the source:
`optionName + " needs to be a valid number"`. -/
def validNumberMsg (optionName : String) : String :=
  optionName ++ " needs to be a valid number"

/-- `asNumber` from api/src/utils.ts as printed in the README: read the
option from the query, fail unless it is a single string whose numeric
coercion is not NaN, and otherwise return the coerced number. -/
def asNumber (query : Query) (optionName : String) : Except String JSNumber :=
  match qlookup query optionName with
  | some (QueryValue.str s) =>
    match jsToNumber s with
    | some n => Except.ok n
    | none => Except.error (validNumberMsg optionName)
  | _ => Except.error (validNumberMsg optionName)

/-- The validated output record `{page, limit}`. -/
structure PageOptions where
  page : JSNumber
  limit : JSNumber
deriving DecidableEq, Repr

/-- Modelled from the spec: the body of `extractPageOptions` is not in the
source (the README shows only its signature and its call site in
server.ts); per the spec it validates the two options through `asNumber`
in the fixed order `page` then `limit`, failing on the first invalid one,
and returns the pair. -/
def extractPageOptions (query : Query) : Except String PageOptions :=
  match asNumber query "page" with
  | Except.error e => Except.error e
  | Except.ok page =>
    match asNumber query "limit" with
    | Except.error e => Except.error e
    | Except.ok limit => Except.ok { page := page, limit := limit }

deriving instance DecidableEq for Except

/-- Whether an extraction result is a success. -/
def resultOk : Except String PageOptions → Bool
  | Except.ok _ => true
  | Except.error _ => false

/-- Whether a looked-up query value is a single string (the only shape
accepted by `asNumber`). -/
def isSingleStringOpt : Option QueryValue → Bool
  | some (QueryValue.str _) => true
  | _ => false

/-- Whether an option passes validation: `asNumber` returns a value
rather than throwing. -/
def optionAccepted (q : Query) (name : String) : Bool :=
  match asNumber q name with
  | Except.ok _ => true
  | Except.error _ => false

/-- The first option, in the fixed validation order page then limit,
whose `asNumber` check fails; meaningful when at least one of the two
checks fails. -/
def firstFailingOption (q : Query) : String :=
  if optionAccepted q "page" = false then "page" else "limit"

/-- `asNumber` with the query mapping threaded as explicit state: its one
interaction with the mapping is the property read `query[optionName]`,
which leaves the mapping as it was. -/
def asNumberS (query : Query) (optionName : String) :
    Except String JSNumber × Query :=
  match qlookup query optionName with
  | some (QueryValue.str s) =>
    match jsToNumber s with
    | some n => (Except.ok n, query)
    | none => (Except.error (validNumberMsg optionName), query)
  | _ => (Except.error (validNumberMsg optionName), query)

/-- `extractPageOptions` with the query mapping threaded as explicit
state through both option reads. -/
def extractPageOptionsS (query : Query) :
    Except String PageOptions × Query :=
  let r1 := asNumberS query "page"
  match r1.1 with
  | Except.error e => (Except.error e, r1.2)
  | Except.ok page =>
    let r2 := asNumberS r1.2 "limit"
    match r2.1 with
    | Except.error e => (Except.error e, r2.2)
    | Except.ok limit => (Except.ok { page := page, limit := limit }, r2.2)

example : jsToNumber "10" = some (JSNumber.finite 10) := by decide
example : jsToNumber "" = some (JSNumber.finite 0) := by decide
example : jsToNumber "page1" = none := by decide
example : jsToNumber "0x10" = some (JSNumber.finite 16) := by decide
example : jsToNumber " " = some (JSNumber.finite 0) := by decide
example : jsToNumber "-5" = some (JSNumber.finite (-5)) := by decide
example : jsToNumber " 12 " = some (JSNumber.finite 12) := by decide
example : jsToNumber "2e3" = some (JSNumber.finite 2000) := by decide
example : jsToNumber "1.25e2" = some (JSNumber.finite 125) := by decide
example : jsToNumber "1e" = none := by decide
example : jsToNumber "." = none := by decide
example : jsToNumber "--5" = none := by decide
example : jsToNumber "-0x10" = none := by decide
example : jsToNumber "+Infinity" = some JSNumber.posInf := by decide
example :
    extractPageOptions [("page", QueryValue.str "1"), ("limit", QueryValue.strArr [])] =
      Except.error "limit needs to be a valid number" := by
  decide
example :
    extractPageOptions [("page", QueryValue.str "1"), ("limit", QueryValue.str "x")] =
      Except.error "limit needs to be a valid number" := by
  decide
example : jsToNumber "Infinity" = some JSNumber.posInf := by decide
example : jsToNumber "-Infinity" = some JSNumber.negInf := by decide
example : jsToNumber "1e3" = some (JSNumber.finite 1000) := by decide
example :
    extractPageOptions [("page", QueryValue.str "1"), ("limit", QueryValue.str "10")] =
      Except.ok { page := JSNumber.finite 1, limit := JSNumber.finite 10 } := by
  decide
example :
    extractPageOptions [("limit", QueryValue.str "10")] =
      Except.error "page needs to be a valid number" := by
  decide

/-! ### Helper lemmas -/

/-- Every error thrown by `asNumber` carries the canonical message for
the option that failed. -/
theorem asNumber_error_msg (q : Query) (name e : String)
    (h : asNumber q name = Except.error e) : e = validNumberMsg name := by
  unfold asNumber at h
  split at h
  · split at h
    · cases h
    · cases h; rfl
  · cases h; rfl

/-- When the option is present as a single string whose coercion
succeeds, `asNumber` returns the coerced value. -/
theorem asNumber_ok_of_lookup (q : Query) (name s : String) (n : JSNumber)
    (hq : qlookup q name = some (QueryValue.str s))
    (hn : jsToNumber s = some n) : asNumber q name = Except.ok n := by
  simp only [asNumber, hq, hn]

/-- Looking up `page` in a two-entry page/limit query. -/
theorem qlookup_pl_page (p l : String) :
    qlookup [("page", QueryValue.str p), ("limit", QueryValue.str l)] "page" =
      some (QueryValue.str p) := rfl

/-- Looking up `limit` in a two-entry page/limit query. -/
theorem qlookup_pl_limit (p l : String) :
    qlookup [("page", QueryValue.str p), ("limit", QueryValue.str l)] "limit" =
      some (QueryValue.str l) := rfl

/-- The extraction succeeds exactly when both options pass validation. -/
theorem resultOk_extract (q : Query) :
    resultOk (extractPageOptions q) =
      (optionAccepted q "page" && optionAccepted q "limit") := by
  unfold resultOk extractPageOptions optionAccepted
  cases asNumber q "page" <;> cases asNumber q "limit" <;> rfl

/-- An option whose `asNumber` check throws is not accepted. -/
theorem optionAccepted_false_of_error (q : Query) (name e : String)
    (h : asNumber q name = Except.error e) :
    optionAccepted q name = false := by
  unfold optionAccepted
  rw [h]

/-- Whenever at least one of the two checks fails, the extraction raises
exactly the canonical message of the first failing option in the fixed
order page then limit. -/
theorem extract_error_first_failing (q : Query)
    (h : optionAccepted q "page" = false ∨ optionAccepted q "limit" = false) :
    extractPageOptions q =
      Except.error (validNumberMsg (firstFailingOption q)) := by
  cases hp : asNumber q "page" with
  | error e =>
    have he : e = validNumberMsg "page" := asNumber_error_msg q "page" e hp
    have hpf : optionAccepted q "page" = false :=
      optionAccepted_false_of_error q "page" e hp
    simp [extractPageOptions, hp, he, firstFailingOption, hpf]
  | ok n =>
    have hpt : optionAccepted q "page" = true := by simp [optionAccepted, hp]
    have hlf : optionAccepted q "limit" = false := by
      cases h with
      | inl h0 => rw [hpt] at h0; simp at h0
      | inr h1 => exact h1
    cases hlm : asNumber q "limit" with
    | ok m => exact absurd hlf (by simp [optionAccepted, hlm])
    | error e =>
      have he : e = validNumberMsg "limit" := asNumber_error_msg q "limit" e hlm
      simp [extractPageOptions, hp, hlm, he, firstFailingOption, hpt]

/-- The state-threaded `asNumber` returns the untouched query alongside
the pure result. -/
theorem asNumberS_eq (q : Query) (name : String) :
    asNumberS q name = (asNumber q name, q) := by
  cases hq : qlookup q name with
  | none => simp only [asNumberS, asNumber, hq]
  | some v =>
    cases v with
    | str s =>
      simp only [asNumberS, asNumber, hq]
      cases jsToNumber s <;> rfl
    | strArr ss => simp only [asNumberS, asNumber, hq]
    | obj fields => simp only [asNumberS, asNumber, hq]
    | objArr os => simp only [asNumberS, asNumber, hq]

/-- The state-threaded extraction returns the untouched query alongside
the pure result. -/
theorem extractPageOptionsS_eq (q : Query) :
    extractPageOptionsS q = (extractPageOptions q, q) := by
  simp only [extractPageOptionsS, extractPageOptions, asNumberS_eq]
  cases asNumber q "page" with
  | error e => rfl
  | ok page => cases asNumber q "limit" <;> rfl

/-! ### Claims -/

/-- C1, counterexample: the claim states that
`extract({page: "", limit: "10"})` raises the ValidationError with message
"page needs to be a valid number"; on the code it does not, because the
unary plus coerces the empty string to 0. -/
theorem c1_counterexample :
    extractPageOptions [("page", QueryValue.str ""), ("limit", QueryValue.str "10")] ≠
      Except.error "page needs to be a valid number" := by
  decide

/-- C1, amended: an empty-string option value is accepted, coercing to 0
(the unary plus of the source maps the empty string to 0, not NaN), so
`extract({page: "", limit: "10"})` succeeds returning
`{page: 0, limit: 10}` rather than failing. -/
theorem c1_empty_string_accepted_as_zero (q : Query) (name : String)
    (h : qlookup q name = some (QueryValue.str "")) :
    asNumber q name = Except.ok (JSNumber.finite 0) ∧
    extractPageOptions [("page", QueryValue.str ""), ("limit", QueryValue.str "10")] =
      Except.ok { page := JSNumber.finite 0, limit := JSNumber.finite 10 } :=
  ⟨asNumber_ok_of_lookup q name "" (JSNumber.finite 0) h (by decide), by decide⟩

/-- C1, witness: the amended theorem applied to a concrete query whose
page value is the empty string. -/
theorem c1_witness :
    asNumber [("page", QueryValue.str "")] "page" =
      Except.ok (JSNumber.finite 0) :=
  (c1_empty_string_accepted_as_zero [("page", QueryValue.str "")] "page" rfl).1

/-- C2: for every pair of strings whose numeric coercion succeeds, the
extraction succeeds and returns exactly the two coerced numbers; in
particular `extract({page: "1", limit: "10"})` returns
`{page: 1, limit: 10}`. -/
theorem c2_valid_numeric_strings (p l : String) (np nl : JSNumber)
    (hp : jsToNumber p = some np) (hl : jsToNumber l = some nl) :
    extractPageOptions [("page", QueryValue.str p), ("limit", QueryValue.str l)] =
      Except.ok { page := np, limit := nl } ∧
    extractPageOptions [("page", QueryValue.str "1"), ("limit", QueryValue.str "10")] =
      Except.ok { page := JSNumber.finite 1, limit := JSNumber.finite 10 } := by
  constructor
  · have h1 := asNumber_ok_of_lookup _ "page" p np (qlookup_pl_page p l) hp
    have h2 := asNumber_ok_of_lookup _ "limit" l nl (qlookup_pl_limit p l) hl
    simp only [extractPageOptions, h1, h2]
  · decide

/-- C2, witness: the theorem applied at `p = "1"`, `l = "10"`. -/
theorem c2_witness :
    extractPageOptions [("page", QueryValue.str "1"), ("limit", QueryValue.str "10")] =
      Except.ok { page := JSNumber.finite 1, limit := JSNumber.finite 10 } :=
  (c2_valid_numeric_strings "1" "10" (JSNumber.finite 1) (JSNumber.finite 10)
    (by decide) (by decide)).1

/-- C3: whenever both options fail validation, the extraction fails with
the page message, never the limit message: the options are checked in the
fixed order page then limit and the first failure is raised. -/
theorem c3_both_invalid_page_error (q : Query)
    (hp : optionAccepted q "page" = false)
    (_hl : optionAccepted q "limit" = false) :
    extractPageOptions q = Except.error "page needs to be a valid number" := by
  cases h : asNumber q "page" with
  | ok n => exact absurd hp (by simp [optionAccepted, h])
  | error e =>
    have he : e = validNumberMsg "page" := asNumber_error_msg q "page" e h
    simp only [extractPageOptions, h]
    rw [he]
    exact rfl

/-- C3, witness: the theorem applied to the empty query, in which both
options are missing. -/
theorem c3_witness :
    extractPageOptions ([] : Query) =
      Except.error "page needs to be a valid number" :=
  c3_both_invalid_page_error [] (by decide) (by decide)

/-- C4: with exactly one option present, the extraction fails with the
message of the missing option: `extract({limit: "10"})` fails with
"page needs to be a valid number" and `extract({page: "10"})` fails with
"limit needs to be a valid number". -/
theorem c4_single_missing_option :
    extractPageOptions [("limit", QueryValue.str "10")] =
      Except.error "page needs to be a valid number" ∧
    extractPageOptions [("page", QueryValue.str "10")] =
      Except.error "limit needs to be a valid number" := by
  decide

/-- C5, counterexample: with both option values arrays (not single
strings), the extraction fails with the page message, so for the option
name limit it does not fail with the message naming limit as the claim
states. -/
theorem c5_counterexample :
    isSingleStringOpt (qlookup
      [("page", QueryValue.strArr ["1"]), ("limit", QueryValue.strArr ["2"])]
      "limit") = false ∧
    extractPageOptions
      [("page", QueryValue.strArr ["1"]), ("limit", QueryValue.strArr ["2"])] =
      Except.error "page needs to be a valid number" ∧
    ("page needs to be a valid number" : String) ≠
      "limit needs to be a valid number" := by
  decide

/-- C5, amended: for every query mapping and option name (page or limit)
whose value is not a single string (absent, an array, or an object), that
option fails its check with the message naming that option, and the
extraction as a whole fails (raising the message of the first failing
option in the order page then limit). -/
theorem c5_non_string_value_rejected (q : Query) (name : String)
    (hname : name = "page" ∨ name = "limit")
    (h : isSingleStringOpt (qlookup q name) = false) :
    asNumber q name = Except.error (validNumberMsg name) ∧
    extractPageOptions q =
      Except.error (validNumberMsg (firstFailingOption q)) := by
  have ha : asNumber q name = Except.error (validNumberMsg name) := by
    cases hq : qlookup q name with
    | none => simp only [asNumber, hq]
    | some v =>
      cases v with
      | str s => rw [hq] at h; exact absurd h (by simp [isSingleStringOpt])
      | strArr ss => simp only [asNumber, hq]
      | obj fields => simp only [asNumber, hq]
      | objArr os => simp only [asNumber, hq]
  refine ⟨ha, ?_⟩
  have hacc : optionAccepted q name = false :=
    optionAccepted_false_of_error q name _ ha
  apply extract_error_first_failing
  cases hname with
  | inl hpg => rw [hpg] at hacc; exact Or.inl hacc
  | inr hlm => rw [hlm] at hacc; exact Or.inr hacc

/-- C5, witness: the amended theorem applied to a query whose page value
is an array. -/
theorem c5_witness :
    asNumber [("page", QueryValue.strArr [])] "page" =
      Except.error (validNumberMsg "page") ∧
    extractPageOptions [("page", QueryValue.strArr [])] =
      Except.error
        (validNumberMsg (firstFailingOption [("page", QueryValue.strArr [])])) :=
  c5_non_string_value_rejected [("page", QueryValue.strArr [])] "page"
    (Or.inl rfl) (by decide)

/-- C6, counterexample: with both option values strings whose coercion is
NaN, the extraction fails with the page message, so for the option limit
it does not fail with the message naming limit as the claim states. -/
theorem c6_counterexample :
    jsToNumber "nope" = none ∧
    extractPageOptions
      [("page", QueryValue.str "page1"), ("limit", QueryValue.str "nope")] =
      Except.error "page needs to be a valid number" ∧
    ("page needs to be a valid number" : String) ≠
      "limit needs to be a valid number" := by
  decide

/-- C6, amended: for every option value that is a string whose numeric
coercion yields NaN, that option fails its check with the message naming
that option, and the extraction as a whole fails (raising the message of
the first failing option in the order page then limit); in particular
`extract({page: "page1", limit: "10"})` fails with
"page needs to be a valid number". -/
theorem c6_nan_string_rejected (q : Query) (name s : String)
    (hname : name = "page" ∨ name = "limit")
    (hq : qlookup q name = some (QueryValue.str s))
    (hnan : jsToNumber s = none) :
    asNumber q name = Except.error (validNumberMsg name) ∧
    extractPageOptions q =
      Except.error (validNumberMsg (firstFailingOption q)) ∧
    extractPageOptions
      [("page", QueryValue.str "page1"), ("limit", QueryValue.str "10")] =
      Except.error "page needs to be a valid number" := by
  have ha : asNumber q name = Except.error (validNumberMsg name) := by
    simp only [asNumber, hq, hnan]
  refine ⟨ha, ?_, by decide⟩
  have hacc : optionAccepted q name = false :=
    optionAccepted_false_of_error q name _ ha
  apply extract_error_first_failing
  cases hname with
  | inl hpg => rw [hpg] at hacc; exact Or.inl hacc
  | inr hlm => rw [hlm] at hacc; exact Or.inr hacc

/-- C6, witness: the amended theorem applied to a query whose page value
is the string "page1", whose coercion is NaN. -/
theorem c6_witness :
    asNumber [("page", QueryValue.str "page1")] "page" =
      Except.error (validNumberMsg "page") :=
  (c6_nan_string_rejected [("page", QueryValue.str "page1")] "page" "page1"
    (Or.inl rfl) rfl (by decide)).1

/-- C7: every negative numeric string (a minus sign followed by a valid
unsigned numeral) is accepted by the coercion, yielding the negated
value, and the extraction does not reject negative options:
`extract({page: "-5", limit: "-1"})` returns `{page: -5, limit: -1}`. -/
theorem c7_negative_numeric_accepted (cs : List Char) (v : JSNumber)
    (h : strUnsignedValue cs = some v) :
    strNumericValue ('-' :: cs) = some (JSNumber.neg v) ∧
    extractPageOptions [("page", QueryValue.str "-5"), ("limit", QueryValue.str "-1")] =
      Except.ok { page := JSNumber.finite (-5), limit := JSNumber.finite (-1) } := by
  constructor
  · show (strUnsignedValue cs).map JSNumber.neg = some (JSNumber.neg v)
    rw [h]; rfl
  · decide

/-- C7, witness: the theorem applied to the digit string 5, giving the
coercion of the string -5. -/
theorem c7_witness :
    strNumericValue ('-' :: "5".toList) =
      some (JSNumber.neg (JSNumber.finite 5)) :=
  (c7_negative_numeric_accepted "5".toList (JSNumber.finite 5) (by decide)).1

/-- C8: the extraction is deterministic: running it a second time on the
query state left by a first run produces the same result (the same value
or the same error message), and that result is the one the pure function
gives. -/
theorem c8_deterministic (q : Query) :
    (extractPageOptionsS ((extractPageOptionsS q).2)).1 = (extractPageOptionsS q).1 ∧
    (extractPageOptionsS ((extractPageOptionsS q).2)).1 = extractPageOptions q := by
  simp [extractPageOptionsS_eq]

/-- C9: the extraction does not mutate the input query mapping: the
state-threaded run returns the query unchanged, and its result agrees
with the pure function (the embedding has no other effect). -/
theorem c9_no_mutation (q : Query) :
    (extractPageOptionsS q).2 = q ∧
    (extractPageOptionsS q).1 = extractPageOptions q := by
  simp [extractPageOptionsS_eq]

/-- C10: the coercion accepts strings beyond decimal and scientific
numerals: `extract({page: "0x10", limit: "10"})` succeeds with page 16,
and `extract({page: " ", limit: "10"})` succeeds with page 0. -/
theorem c10_hex_and_whitespace :
    extractPageOptions [("page", QueryValue.str "0x10"), ("limit", QueryValue.str "10")] =
      Except.ok { page := JSNumber.finite 16, limit := JSNumber.finite 10 } ∧
    extractPageOptions [("page", QueryValue.str " "), ("limit", QueryValue.str "10")] =
      Except.ok { page := JSNumber.finite 0, limit := JSNumber.finite 10 } := by
  decide
